import Mathlib

/-!
Verification development for the PesaCoreDB relational engine
(`src/rdbms`).  The Python sources are shallowly embedded below:
pure functions become Lean functions, in-place mutation becomes
explicit state passing, exceptions become `Except` results, and
Python dictionaries (which preserve insertion order) become
association lists.  Each definition names the source artefact it
embeds.
-/

set_option maxRecDepth 4096

/-- Python runtime values as they flow through the engine: the engine
stores plain Python objects in rows (`None`, `int`, `float`, `str`,
`bool`).  Floats are modelled as rationals, which is exact for every
float literal producible by the SQL tokenizer (decimal literals). -/
inductive PyVal where
  | none
  | int (i : Int)
  | float (q : Rat)
  | str (s : String)
  | bool (b : Bool)
  deriving DecidableEq, Repr

/-- The `DataType` enum of `engine/row.py`. -/
inductive DataType where
  | INT
  | FLOAT
  | STRING
  | BOOL
  | DATE
  | TIME
  | DATETIME
  deriving DecidableEq, Repr

/-- The `.value` attribute of a `DataType` member. -/
def DataType.valueStr : DataType → String
  | .INT => "INT"
  | .FLOAT => "FLOAT"
  | .STRING => "STRING"
  | .BOOL => "BOOL"
  | .DATE => "DATE"
  | .TIME => "TIME"
  | .DATETIME => "DATETIME"

/-- Errors raised by the embedded engine.  Constructors carry the data
that the corresponding Python exception message interpolates.  The
`attributeError` constructor stands apart: it models a Python
`AttributeError`, which is not part of the error taxonomy of the spec
and is never caught by the executor (whose handlers catch only
`ValueError`). -/
inductive Err where
  | missingColumn (col : String)
  | typeMismatch (col : String) (expected : DataType)
  | unknownType (col : String)
  | unsupportedDataType (name : String)
  | uniqueViolation (col : String)
  | fkViolation (col : String) (refTable refCol : String)
  | fkTableMissing (tbl : String)
  | restrictDelete (tbl : String) (whereCol : String) (refTable refCol : String)
  | restrictUpdate (tbl : String) (setCol : String) (refTable refCol : String)
  | columnNotFound (col : String) (tbl : String)
  | tableExists (tbl : String)
  | tableMissing (tbl : String)
  | schemaError (msg : String)
  | indexError
  | tokenError (pos : Nat)
  | parseExpectedValue (v : String)
  | parseExpectedType (ty : String) (near : String)
  | parseInvalidDataType (near : String)
  | parseUnexpected (msg : String)
  | parseEndOfInput
  | attributeError (name : String)
  | notImplemented (msg : String)
  | outOfFuel
  deriving DecidableEq, Repr

/-- `str.upper()` on ASCII input (written over the character list so
that it evaluates by plain list recursion). -/
def pyUpper (s : String) : String := String.mk (s.data.map Char.toUpper)

/-- `str.lower()` on ASCII input. -/
def pyLower (s : String) : String := String.mk (s.data.map Char.toLower)

/-- Numeric view used by Python comparisons and dictionary keys:
`int`, `float` and `bool` (a subclass of `int`, with `True == 1`)
compare numerically. -/
def PyVal.toRatQ : PyVal → Option Rat
  | .int i => some (i : Rat)
  | .float q => some q
  | .bool b => some (if b then 1 else 0)
  | _ => Option.none

/-- Python `==` on values: numeric kinds compare numerically, strings
structurally; `None` equals only `None`; every other mixed pair is
unequal. -/
def pyEq (a b : PyVal) : Bool :=
  match a.toRatQ, b.toRatQ with
  | some x, some y => x == y
  | _, _ =>
    match a, b with
    | .str s, .str t => s == t
    | .none, .none => true
    | _, _ => false

/-- Python `str(value)` for the value kinds the engine stores.  Float
rendering covers the finite decimal values reachable from SQL literals
(17 fractional digits suffice for every such value). -/
def ratFracDigits (fuel : Nat) (r : Rat) : String :=
  match fuel with
  | 0 => ""
  | fuel + 1 =>
    if r == 0 then ""
    else
      let r10 := r * 10
      let d : Int := r10.floor
      toString d ++ ratFracDigits fuel (r10 - (d : Rat))

/-- Python `str` on an embedded value. -/
def pyStr : PyVal → String
  | .none => "None"
  | .int i => toString i
  | .bool b => if b then "True" else "False"
  | .str s => s
  | .float q =>
    let sign := if q < 0 then "-" else ""
    let a := if q < 0 then -q else q
    let ip : Int := a.floor
    let frac := ratFracDigits 17 (a - (ip : Rat))
    sign ++ toString ip ++ "." ++ (if frac = "" then "0" else frac)

/-- Python `<` on two non-`None` values of the kinds the engine
compares after its coercion step: numeric pairs compare numerically,
string pairs lexicographically; any other pair raises `TypeError`.
That error is modelled as `Err.notImplemented` since no embedded call
site reaches it with well-typed rows. -/
def pyLt (a b : PyVal) : Except Err Bool :=
  match a.toRatQ, b.toRatQ with
  | some x, some y => .ok (decide (x < y))
  | _, _ =>
    match a, b with
    | .str s, .str t => .ok (decide (s < t))
    | _, _ => .error (.notImplemented "unorderable types")

/-- Total string order (code-point lexicographic, as in Python). -/
def strLe (a b : String) : Bool := a == b || decide (a < b)

/-- Total comparison on values used to model Python sort keys; on the
pairs Python can actually order it agrees with Python `<=`, and any
unorderable pair (which would raise `TypeError` in Python and is
unreachable from the embedded call sites) is treated as a tie. -/
def pyValLe (a b : PyVal) : Bool :=
  match a.toRatQ, b.toRatQ with
  | some x, some y => decide (x ≤ y)
  | _, _ =>
    match a, b with
    | .str s, .str t => strLe s t
    | _, _ => true

/-- A Python dict with string keys, in insertion order. -/
abbrev RowMap := List (String × PyVal)

/-- Dictionary lookup (`d.get(k)` without default). -/
def dictGet (d : List (String × α)) (k : String) : Option α :=
  match d with
  | [] => Option.none
  | (k₂, v) :: rest => if k₂ = k then some v else dictGet rest k

/-- Dictionary membership (`k in d`). -/
def dictHas (d : List (String × α)) (k : String) : Bool :=
  (dictGet d k).isSome

/-- Dictionary assignment `d[k] = v`: replaces in place, preserving
insertion order, appending when the key is new. -/
def dictSet (d : List (String × α)) (k : String) (v : α) : List (String × α) :=
  match d with
  | [] => [(k, v)]
  | (k₂, w) :: rest => if k₂ = k then (k₂, v) :: rest else (k₂, w) :: dictSet rest k v

/-- Python `int(s)` on a string: optional surrounding whitespace, an
optional sign, then one or more decimal digits. -/
def pyIntOfString (s : String) : Option Int :=
  let chars := s.data.dropWhile Char.isWhitespace
  let chars := (chars.reverse.dropWhile Char.isWhitespace).reverse
  let (neg, digits) :=
    match chars with
    | '-' :: rest => (true, rest)
    | '+' :: rest => (false, rest)
    | rest => (false, rest)
  if digits = [] || !digits.all Char.isDigit then Option.none
  else
    let n : Nat := digits.foldl (fun acc c => acc * 10 + (c.toNat - 48)) 0
    some (if neg then -(n : Int) else (n : Int))

/-- Python `float(s)` on a string, for the plain decimal forms
`[sign]digits[.digits]` (the forms the SQL surface can produce). -/
def pyFloatOfString (s : String) : Option Rat :=
  let chars := s.data.dropWhile Char.isWhitespace
  let chars := (chars.reverse.dropWhile Char.isWhitespace).reverse
  let (neg, body) :=
    match chars with
    | '-' :: rest => (true, rest)
    | '+' :: rest => (false, rest)
    | rest => (false, rest)
  let intPart := body.takeWhile Char.isDigit
  let rest := body.drop intPart.length
  let parsed : Option Rat :=
    match rest with
    | [] =>
      if intPart = [] then Option.none
      else some ((intPart.foldl (fun acc c => acc * 10 + (c.toNat - 48)) 0 : Nat) : Rat)
    | '.' :: fracPart =>
      if intPart = [] && fracPart = [] then Option.none
      else if !fracPart.all Char.isDigit then Option.none
      else
        let ip := (intPart.foldl (fun acc c => acc * 10 + (c.toNat - 48)) 0 : Nat)
        let fp := (fracPart.foldl (fun acc c => acc * 10 + (c.toNat - 48)) 0 : Nat)
        some ((ip : Rat) + (fp : Rat) / ((10 : Rat) ^ fracPart.length))
    | _ => Option.none
  parsed.map (fun r => if neg then -r else r)

/-- Python `int(value)`: `int` is the identity, `float` truncates
toward zero, `str` parses a decimal integer; `None` raises
`TypeError`.  (`bool` is excluded by the caller before this point,
matching the explicit `isinstance(value, bool)` guard.) -/
def pyIntCoerce : PyVal → Option Int
  | .int i => some i
  | .float q => some (if q < 0 then -((-q).floor) else q.floor)
  | .str s => pyIntOfString s
  | .bool b => some (if b then 1 else 0)
  | .none => Option.none

/-- Python `float(value)`. -/
def pyFloatCoerce : PyVal → Option Rat
  | .int i => some (i : Rat)
  | .float q => some q
  | .str s => pyFloatOfString s
  | .bool b => some (if b then 1 else 0)
  | .none => Option.none

/-- Numeric value of a digit string. -/
def digitsVal (l : List Char) : Nat :=
  l.foldl (fun a c => a * 10 + (c.toNat - 48)) 0

/-- All characters are digits and the list is nonempty. -/
def allDigits (l : List Char) : Bool :=
  !l.isEmpty && l.all Char.isDigit

/-- Gregorian leap-year rule (as used by Python `datetime`). -/
def isLeap (y : Nat) : Bool :=
  (y % 4 == 0 && y % 100 != 0) || (y % 400 == 0)

/-- Days in a month of the proleptic Gregorian calendar. -/
def daysInMonth (y m : Nat) : Nat :=
  if m = 2 then (if isLeap y then 29 else 28)
  else if m = 4 || m = 6 || m = 9 || m = 11 then 30
  else 31

/-- Zero-pad to two digits. -/
def pad2 (n : Nat) : String :=
  if n < 10 then "0" ++ toString n else toString n

/-- Zero-pad to four digits. -/
def pad4 (n : Nat) : String :=
  if n < 10 then "000" ++ toString n
  else if n < 100 then "00" ++ toString n
  else if n < 1000 then "0" ++ toString n
  else toString n

/-- Zero-pad to six digits (microseconds). -/
def pad6 (n : Nat) : String :=
  let s := toString n
  String.mk (List.replicate (6 - s.length) '0') ++ s

/-- Split a character list at a separator character. -/
def splitOnChar (sep : Char) (l : List Char) : List (List Char) :=
  match l with
  | [] => [[]]
  | c :: rest =>
    let parts := splitOnChar sep rest
    if c = sep then [] :: parts
    else
      match parts with
      | [] => [[c]]
      | p :: ps => (c :: p) :: ps

/-- `datetime.strptime(value, "%Y-%m-%d")` field extraction: up to four
year digits, one or two month and day digits, ranges validated
(including leap years). -/
def parseDateFields (s : String) : Option (Nat × Nat × Nat) :=
  match splitOnChar '-' s.data with
  | [ys, ms, ds] =>
    if allDigits ys && ys.length ≤ 4 && allDigits ms && ms.length ≤ 2
        && allDigits ds && ds.length ≤ 2 then
      let y := digitsVal ys
      let m := digitsVal ms
      let d := digitsVal ds
      if 1 ≤ y && 1 ≤ m && m ≤ 12 && 1 ≤ d && d ≤ daysInMonth y m then
        some (y, m, d)
      else Option.none
    else Option.none
  | _ => Option.none

/-- `parse_date` of `engine/row.py` restricted to the value kinds the
SQL surface can produce (strings; `date` objects never reach the
engine from queries): validates `YYYY-MM-DD` via strptime and returns
the ISO form. -/
def parseDatePy (s : String) : Option String :=
  (parseDateFields s).map fun (y, m, d) =>
    pad4 y ++ "-" ++ pad2 m ++ "-" ++ pad2 d

/-- `datetime.strptime` time extraction for the three formats tried by
`parse_time`: `%H:%M:%S.%f`, `%H:%M:%S`, `%H:%M`.  Returns
(hour, minute, second, microsecond). -/
def parseTimeFields (s : String) : Option (Nat × Nat × Nat × Nat) :=
  let checkHM (hs ms : List Char) : Bool :=
    allDigits hs && hs.length ≤ 2 && allDigits ms && ms.length ≤ 2
      && digitsVal hs ≤ 23 && digitsVal ms ≤ 59
  match splitOnChar ':' s.data with
  | [hs, ms, ss] =>
    match splitOnChar '.' ss with
    | [sec, frac] =>
      if checkHM hs ms && allDigits sec && sec.length ≤ 2 && digitsVal sec ≤ 59
          && allDigits frac && frac.length ≤ 6 then
        some (digitsVal hs, digitsVal ms, digitsVal sec,
          digitsVal frac * 10 ^ (6 - frac.length))
      else Option.none
    | [sec] =>
      if checkHM hs ms && allDigits sec && sec.length ≤ 2 && digitsVal sec ≤ 59 then
        some (digitsVal hs, digitsVal ms, digitsVal sec, 0)
      else Option.none
    | _ => Option.none
  | [hs, ms] =>
    if checkHM hs ms then some (digitsVal hs, digitsVal ms, 0, 0)
    else Option.none
  | _ => Option.none

/-- `parse_time` of `engine/row.py` on strings: `time.isoformat()`
output, with a fractional part exactly when microseconds are nonzero. -/
def parseTimePy (s : String) : Option String :=
  (parseTimeFields s).map fun (h, m, sec, micro) =>
    pad2 h ++ ":" ++ pad2 m ++ ":" ++ pad2 sec
      ++ (if micro ≠ 0 then "." ++ pad6 micro else "")

/-- `parse_datetime` of `engine/row.py` on strings: models
`datetime.fromisoformat` (after the `Z` → `+00:00` rewrite) on the
shapes `isoformat` emits — `YYYY-MM-DD`, optionally followed by a
one-character separator, `HH:MM[:SS[.fff[fff]]]`, and an optional
`±HH:MM` offset — plus the four explicit strptime fallbacks, which
are subsumed by these shapes.  Returns `datetime.isoformat()`. -/
def parseDatetimePy (s : String) : Option String :=
  let s := s.replace "Z" "+00:00"
  let chars := s.data
  let ds := chars.take 10
  let datePart := String.mk ds
  match parseDateFields datePart with
  | Option.none => Option.none
  | some (y, m, d) =>
    if ds.length ≠ 10 then Option.none
    else
      let iso := pad4 y ++ "-" ++ pad2 m ++ "-" ++ pad2 d
      match chars.drop 10 with
      | [] => some (iso ++ "T00:00:00")
      | _ :: timeChars =>
        let (timePart, offPart) :=
          match timeChars.findIdx? (fun c => c = '+' || c = '-') with
          | Option.none => (timeChars, ([] : List Char))
          | some i => (timeChars.take i, timeChars.drop i)
        let offOk : Option String :=
          match offPart with
          | [] => some ""
          | sign :: rest =>
            match splitOnChar ':' rest with
            | [oh, om] =>
              if allDigits oh && oh.length = 2 && allDigits om && om.length = 2
                  && digitsVal oh ≤ 23 && digitsVal om ≤ 59 then
                some (String.mk [sign] ++ String.mk oh ++ ":" ++ String.mk om)
              else Option.none
            | _ => Option.none
        match parseTimeFields (String.mk timePart), offOk with
        | some (h, mi, sec, micro), some off =>
          some (iso ++ "T" ++ pad2 h ++ ":" ++ pad2 mi ++ ":" ++ pad2 sec
            ++ (if micro ≠ 0 then "." ++ pad6 micro else "") ++ off)
        | _, _ => Option.none

/-- `DataType.from_string` of `engine/row.py`: uppercases, maps the
aliases `REAL`, `DOUBLE`, `DECIMAL` to FLOAT and `TIMESTAMP` to
DATETIME, then looks the name up among the enum members. -/
def DataType.fromString (typeStr : String) : Except Err DataType :=
  let t := pyUpper typeStr
  if t = "REAL" || t = "DOUBLE" || t = "DECIMAL" then .ok .FLOAT
  else if t = "TIMESTAMP" then .ok .DATETIME
  else if t = "INT" then .ok .INT
  else if t = "FLOAT" then .ok .FLOAT
  else if t = "STRING" then .ok .STRING
  else if t = "BOOL" then .ok .BOOL
  else if t = "DATE" then .ok .DATE
  else if t = "TIME" then .ok .TIME
  else if t = "DATETIME" then .ok .DATETIME
  else .error (.unsupportedDataType typeStr)

/-- `Row._validate_type` of `engine/row.py`.  Every failure path of the
source raises `ValueError` with a per-column message; the embedding
collapses those messages into `Err.typeMismatch colName expected`.
Note that the value `None` is rejected by every branch: `int(None)` and
`float(None)` raise `TypeError`, the `isinstance` checks for STRING and
BOOL fail, and the date/time/datetime parsers reject non-strings. -/
def validateType (colName : String) (value : PyVal) (expected : DataType) : Except Err PyVal :=
  match expected with
  | .INT =>
    match value with
    | .bool _ => .error (.typeMismatch colName .INT)
    | v =>
      match pyIntCoerce v with
      | some i => .ok (.int i)
      | Option.none => .error (.typeMismatch colName .INT)
  | .FLOAT =>
    match value with
    | .bool _ => .error (.typeMismatch colName .FLOAT)
    | v =>
      match pyFloatCoerce v with
      | some q => .ok (.float q)
      | Option.none => .error (.typeMismatch colName .FLOAT)
  | .STRING =>
    match value with
    | .str s => .ok (.str s)
    | _ => .error (.typeMismatch colName .STRING)
  | .BOOL =>
    match value with
    | .bool b => .ok (.bool b)
    | .str s =>
      let l := pyLower s
      if l = "true" || l = "1" || l = "yes" then .ok (.bool true)
      else if l = "false" || l = "0" || l = "no" then .ok (.bool false)
      else .error (.typeMismatch colName .BOOL)
    | _ => .error (.typeMismatch colName .BOOL)
  | .DATE =>
    match value with
    | .str s =>
      match parseDatePy s with
      | some out => .ok (.str out)
      | Option.none => .error (.typeMismatch colName .DATE)
    | _ => .error (.typeMismatch colName .DATE)
  | .TIME =>
    match value with
    | .str s =>
      match parseTimePy s with
      | some out => .ok (.str out)
      | Option.none => .error (.typeMismatch colName .TIME)
    | _ => .error (.typeMismatch colName .TIME)
  | .DATETIME =>
    match value with
    | .str s =>
      match parseDatetimePy s with
      | some out => .ok (.str out)
      | Option.none => .error (.typeMismatch colName .DATETIME)
    | _ => .error (.typeMismatch colName .DATETIME)

/-- A table schema: column name to data type, in declaration order
(the `self.schema` dict of `Table`). -/
abbrev Schema := List (String × DataType)

/-- The validation loop of `Row.__init__`: iterate the schema in
order, fail on the first missing or invalid value, store validated
values in schema order. -/
def mkRowAux (values : RowMap) : Schema → Except Err RowMap
  | [] => .ok []
  | (colName, colType) :: rest =>
    match dictGet values colName with
    | Option.none => .error (.missingColumn colName)
    | some v => do
      let w ← validateType colName v colType
      let r ← mkRowAux values rest
      .ok ((colName, w) :: r)

/-- `Row.__init__` of `engine/row.py`: schema-driven construction with
type validation. -/
def mkRow (schema : Schema) (values : RowMap) : Except Err RowMap :=
  mkRowAux values schema

/-- `Row.get`: `self.values.get(col_name)`, yielding `None` for a
missing key. -/
def rowGet (row : RowMap) (colName : String) : PyVal :=
  (dictGet row colName).getD .none

/-- `Row.set`: membership check against the schema, then type
validation, then in-place assignment. -/
def rowSet (schema : Schema) (row : RowMap) (colName : String) (value : PyVal) :
    Except Err RowMap :=
  match dictGet schema colName with
  | Option.none => .error (.columnNotFound colName "")
  | some ty => do
    let w ← validateType colName value ty
    .ok (dictSet row colName w)

/-- The `Index` class of `engine/index.py`: a hash map from column
value to the list of row positions, in key-insertion order (Python
dicts preserve it), tagged unique or not.  Key equality is Python
`==`, i.e. `pyEq`. -/
structure Index where
  columnName : String
  isUnique : Bool
  entries : List (PyVal × List Nat)
  deriving DecidableEq, Repr

/-- Lookup in the entry map under Python key equality. -/
def entriesGet (es : List (PyVal × List Nat)) (v : PyVal) : Option (List Nat) :=
  match es with
  | [] => Option.none
  | (w, l) :: rest => if pyEq w v then some l else entriesGet rest v

/-- Append a row position to the bucket of an existing key. -/
def entriesAppend (es : List (PyVal × List Nat)) (v : PyVal) (rowIndex : Nat) :
    List (PyVal × List Nat) :=
  match es with
  | [] => []
  | (w, l) :: rest =>
    if pyEq w v then (w, l ++ [rowIndex]) :: rest
    else (w, l) :: entriesAppend rest v rowIndex

/-- `Index.insert`: unique check, then `self._index[value].append(row_index)`
(creating the bucket when absent, at the end of the dict). -/
def Index.insertVal (idx : Index) (value : PyVal) (rowIndex : Nat) : Except Err Index :=
  if idx.isUnique && (entriesGet idx.entries value).isSome then
    .error (.uniqueViolation idx.columnName)
  else
    match entriesGet idx.entries value with
    | Option.none => .ok { idx with entries := idx.entries ++ [(value, [rowIndex])] }
    | some _ => .ok { idx with entries := entriesAppend idx.entries value rowIndex }

/-- `Index.lookup`: bucket of a value, `[]` when absent. -/
def Index.lookupVal (idx : Index) (value : PyVal) : List Nat :=
  (entriesGet idx.entries value).getD []

/-- `Index.remove`: drop the first occurrence of the row position from
the bucket (a no-op when either is absent), deleting the bucket when
it empties. -/
def Index.removeVal (idx : Index) (value : PyVal) (rowIndex : Nat) : Index :=
  let entries :=
    (idx.entries.map fun (w, l) =>
      if pyEq w value then (w, l.erase rowIndex) else (w, l)).filter
      fun (w, l) => !(pyEq w value) || !l.isEmpty
  { idx with entries := entries }

/-- `Index.update`: no-op when the value is unchanged; otherwise a
unique check on the new value, then remove + insert. -/
def Index.updateVal (idx : Index) (oldValue newValue : PyVal) (rowIndex : Nat) :
    Except Err Index :=
  if pyEq oldValue newValue then .ok idx
  else if idx.isUnique && (entriesGet idx.entries newValue).isSome then
    .error (.uniqueViolation idx.columnName)
  else (idx.removeVal oldValue rowIndex).insertVal newValue rowIndex

/-- `ColumnDefinition` of `engine/table.py`.  The referential actions
default to RESTRICT exactly as in `__init__`. -/
structure ColumnDefinition where
  name : String
  dataType : DataType
  isPrimaryKey : Bool := false
  isUnique : Bool := false
  foreignKeyTable : Option String := Option.none
  foreignKeyColumn : Option String := Option.none
  onDelete : String := "RESTRICT"
  onUpdate : String := "RESTRICT"
  deriving DecidableEq, Repr

/-- `ColumnDefinition.__init__`: uppercases a provided action string,
defaulting absent (or empty, i.e. falsy) actions to RESTRICT. -/
def mkColumnDefinition (name : String) (dataType : DataType)
    (isPrimaryKey isUnique : Bool) (fkTable fkColumn : Option String)
    (onDelete onUpdate : Option String) : ColumnDefinition :=
  { name := name, dataType := dataType, isPrimaryKey := isPrimaryKey,
    isUnique := isUnique, foreignKeyTable := fkTable, foreignKeyColumn := fkColumn,
    onDelete := match onDelete with
      | some s => if s = "" then "RESTRICT" else pyUpper s
      | Option.none => "RESTRICT",
    onUpdate := match onUpdate with
      | some s => if s = "" then "RESTRICT" else pyUpper s
      | Option.none => "RESTRICT" }

/-- The `Table` class of `engine/table.py`.  `hasDatabase` models
whether `self.database` is `None`: the executor and the snapshot
loader both construct tables without the back reference. -/
structure Table where
  name : String
  columns : List ColumnDefinition
  hasDatabase : Bool
  rows : List RowMap
  indexes : List Index
  deriving DecidableEq, Repr

/-- `self.schema`: column name to type, in declaration order. -/
def Table.schemaOf (t : Table) : Schema :=
  t.columns.map fun c => (c.name, c.dataType)

/-- `self.primary_key_column`, assigned by the constructor loop (the
last primary-key column wins; schema validation ensures uniqueness). -/
def Table.primaryKeyColumn (t : Table) : Option String :=
  t.columns.foldl (fun acc c => if c.isPrimaryKey then some c.name else acc) Option.none

/-- `self.unique_columns`: the primary key plus every UNIQUE column.
The source stores a Python set; the embedding keeps declaration order,
which is the only iteration order the engine state depends on given
that the constructor inserts the primary-key index first. -/
def Table.uniqueColumnsOf (columns : List ColumnDefinition) : List String :=
  columns.foldl
    (fun acc c =>
      if c.isPrimaryKey || (!c.isPrimaryKey && c.isUnique) then
        if acc.contains c.name then acc else acc ++ [c.name]
      else acc) []

/-- Membership of a column name in the index dict. -/
def indexHas (indexes : List Index) (colName : String) : Bool :=
  indexes.any fun i => i.columnName == colName

/-- Lookup of an index by column name. -/
def indexFind (indexes : List Index) (colName : String) : Option Index :=
  indexes.find? fun i => i.columnName == colName

/-- `Table._validate_schema`: nonempty column list, no duplicate
names, exactly one PRIMARY KEY. -/
def validateSchema (columns : List ColumnDefinition) : Except Err Unit :=
  if columns.isEmpty then
    .error (.schemaError "Table must have at least one column")
  else
    let names := columns.map (·.name)
    if names.length ≠ names.eraseDups.length then
      .error (.schemaError "Duplicate column names are not allowed")
    else
      let pks := columns.filter (·.isPrimaryKey)
      if pks.length = 0 then
        .error (.schemaError "Table must have exactly one PRIMARY KEY column")
      else if pks.length > 1 then
        .error (.schemaError "Table can have only one PRIMARY KEY column")
      else .ok ()

/-- `Table.__init__`: validate the schema, then build the index dict —
a unique index for the primary key, unique indexes for the remaining
UNIQUE columns, and non-unique indexes for foreign-key columns not
already indexed. -/
def mkTable (name : String) (columns : List ColumnDefinition) (hasDatabase : Bool) :
    Except Err Table := do
  validateSchema columns
  let pk := columns.foldl (fun acc c => if c.isPrimaryKey then some c.name else acc)
    (Option.none : Option String)
  let idx0 : List Index :=
    match pk with
    | some p => [{ columnName := p, isUnique := true, entries := [] }]
    | Option.none => []
  let idx1 := (Table.uniqueColumnsOf columns).foldl
    (fun acc n =>
      if indexHas acc n then acc
      else acc ++ [{ columnName := n, isUnique := true, entries := [] }]) idx0
  let idx2 := columns.foldl
    (fun acc c =>
      match c.foreignKeyTable with
      | some ft =>
        if ft ≠ "" && !indexHas acc c.name then
          acc ++ [{ columnName := c.name, isUnique := false, entries := [] }]
        else acc
      | Option.none => acc) idx1
  .ok { name := name, columns := columns, hasDatabase := hasDatabase,
        rows := [], indexes := idx2 }

/-- Python list indexing `self.rows[i]`, raising `IndexError` when the
position is stale (possible after the insert-rollback bug of C4). -/
def pyRowsGet (rows : List RowMap) (i : Nat) : Except Err RowMap :=
  match rows.get? i with
  | some r => .ok r
  | Option.none => .error .indexError

/-- Column projection of `Table.select`: a fresh dict per row, in the
requested column order, via `row.get`. -/
def projectRows (rows : List RowMap) (columns : List String) : List RowMap :=
  rows.map fun r => columns.map fun c => (c, rowGet r c)

/-- `Table.select`: validate the projection, locate matching rows by
index lookup or full scan, project. -/
def tableSelect (t : Table) (columns : Option (List String))
    (whereCol : Option String) (whereVal : PyVal) : Except Err (List RowMap) := do
  let cols ← match columns with
    | some cs =>
      match cs.find? (fun c => !dictHas t.schemaOf c) with
      | some c => Except.error (.columnNotFound c t.name)
      | Option.none => Except.ok cs
    | Option.none => Except.ok (t.schemaOf.map (·.1))
  let rows ← match whereCol with
    | some wc =>
      if !dictHas t.schemaOf wc then Except.error (.columnNotFound wc t.name)
      else
        match indexFind t.indexes wc with
        | some idx => (idx.lookupVal whereVal).mapM (pyRowsGet t.rows)
        | Option.none => Except.ok (t.rows.filter fun r => pyEq (rowGet r wc) whereVal)
    | Option.none => Except.ok t.rows
  .ok (projectRows rows cols)

/-- One pass of the rebuild loop: insert one row into every index. -/
def insertRowIntoIndexes (indexes : List Index) (row : RowMap) (rowIdx : Nat) :
    Except Err (List Index) :=
  indexes.mapM fun idx => idx.insertVal (rowGet row idx.columnName) rowIdx

/-- `Table._rebuild_indexes`: clear every index, then re-insert every
row at its current position. -/
def Table.rebuildIndexes (t : Table) : Except Err Table := do
  let cleared := t.indexes.map fun i => { i with entries := [] }
  let idxs ← t.rows.enum.foldlM
    (fun acc (p : Nat × RowMap) => insertRowIntoIndexes acc p.2 p.1) cleared
  .ok { t with indexes := idxs }

/-- The `Database` class of `engine/database.py`: named tables in
creation order. -/
structure Database where
  name : String
  tables : List (String × Table)
  deriving DecidableEq, Repr

/-- `Database.list_tables`. -/
def Database.listTables (db : Database) : List String :=
  db.tables.map (·.1)

/-- `Database.get_table`. -/
def Database.getTable (db : Database) (tableName : String) : Except Err Table :=
  match dictGet db.tables tableName with
  | some t => .ok t
  | Option.none => .error (.tableMissing tableName)

/-- Write a table back under its key (models mutation of the shared
table object held by `self.tables`). -/
def Database.setTable (db : Database) (tableName : String) (t : Table) : Database :=
  { db with tables := dictSet db.tables tableName t }

/-- `Table.validate_foreign_keys` (the loop body for one column): any
failure inside the try block other than a foreign-key violation is
re-raised as a missing-referenced-table error, exactly as the
`except ValueError` handler does. -/
def validateFkColumn (db : Database) (values : RowMap) (c : ColumnDefinition) :
    Except Err Unit :=
  match c.foreignKeyTable with
  | some ft =>
    if ft ≠ "" && dictHas values c.name then
      match dictGet values c.name with
      | some fkValue =>
        if fkValue = PyVal.none then .ok ()
        else
          let refCol := c.foreignKeyColumn.getD ""
          match db.getTable ft with
          | .error _ => .error (.fkTableMissing ft)
          | .ok refT =>
            match tableSelect refT (some [refCol]) (some refCol) fkValue with
            | .error _ => .error (.fkTableMissing ft)
            | .ok matches2 =>
              if matches2.isEmpty then .error (.fkViolation c.name ft refCol)
              else .ok ()
      | Option.none => .ok ()
    else .ok ()
  | Option.none => .ok ()

/-- `Table.validate_foreign_keys`: checks every foreign-key column
mentioned in the values against the referenced table.  (The caller
skips this entirely when the table has no database back reference.) -/
def validateForeignKeys (db : Database) (t : Table) (values : RowMap) :
    Except Err Unit :=
  t.columns.foldlM (fun _ c => validateFkColumn db values c) ()

/-- The index-insertion loop of `Table.insert`: on a uniqueness
failure the loop stops and the indexes mutated so far are kept — the
source has no rollback. -/
def insertIntoIndexesPartial (indexes : List Index) (row : RowMap) (rowIdx : Nat) :
    (Except Err Unit) × List Index :=
  match indexes with
  | [] => (.ok (), [])
  | idx :: rest =>
    match idx.insertVal (rowGet row idx.columnName) rowIdx with
    | .error e => (.error e, idx :: rest)
    | .ok idx2 =>
      let (r, rest2) := insertIntoIndexesPartial rest row rowIdx
      match r with
      | .error e => (.error e, idx2 :: rest2)
      | .ok () => (.ok (), idx2 :: rest2)

/-- `Table.insert`: validate foreign keys (skipped without a database
back reference), construct the row, insert into every index, then
append the row.  The returned table is the post-call state of the
mutable `Table` object, including partial index mutations left behind
by a failure. -/
def tableInsert (db : Option Database) (t : Table) (values : RowMap) :
    (Except Err Nat) × Table :=
  let fkCheck : Except Err Unit :=
    match db with
    | some d => if t.hasDatabase then validateForeignKeys d t values else .ok ()
    | Option.none => .ok ()
  match fkCheck with
  | .error e => (.error e, t)
  | .ok () =>
    match mkRow t.schemaOf values with
    | .error e => (.error e, t)
    | .ok row =>
      let rowIndex := t.rows.length
      match insertIntoIndexesPartial t.indexes row rowIndex with
      | (.error e, idxs) => (.error e, { t with indexes := idxs })
      | (.ok (), idxs) =>
        (.ok rowIndex, { t with indexes := idxs, rows := t.rows ++ [row] })

/-- Stable insertion into a sorted list: an element goes before the
first entry it is `le`-below-or-tied-with, so earlier elements keep
their relative order among ties. -/
def insertStable (le : α → α → Bool) (x : α) : List α → List α
  | [] => [x]
  | y :: ys => if le x y then x :: y :: ys else y :: insertStable le x ys

/-- Stable sort by a total boolean preorder.  A stable sort is unique
for a total preorder, so this models the output of Python `list.sort`. -/
def stableSortBy (le : α → α → Bool) : List α → List α
  | [] => []
  | x :: xs => insertStable le x (stableSortBy le xs)

/-- `sorted(row_indices, reverse=True)` on row positions. -/
def sortNatDesc (l : List Nat) : List Nat :=
  stableSortBy (fun a b => decide (b ≤ a)) l

/-- The deletion loop of `Table.delete`: visit positions in descending
order, remove the row from every index, pop it from the row list. -/
def deleteRowsLoop (rows : List RowMap) (indexes : List Index) (count : Nat) :
    List Nat → Except Err (List RowMap × List Index × Nat)
  | [] => .ok (rows, indexes, count)
  | i :: rest =>
    match rows.get? i with
    | Option.none => .error .indexError
    | some row =>
      let indexes := indexes.map fun idx => idx.removeVal (rowGet row idx.columnName) i
      deleteRowsLoop (rows.eraseIdx i) indexes (count + 1) rest

/-- The row-location step shared by `Table.update` and `Table.delete`:
index lookup when the WHERE column is indexed, otherwise a scan; all
positions when no WHERE column is given. -/
def locateRows (t : Table) (whereCol : Option String) (whereVal : PyVal) :
    Except Err (List Nat) :=
  match whereCol with
  | some wc =>
    if !dictHas t.schemaOf wc then .error (.columnNotFound wc t.name)
    else
      match indexFind t.indexes wc with
      | some idx => .ok (idx.lookupVal whereVal)
      | Option.none =>
        .ok ((t.rows.enum.filter fun p => pyEq (rowGet p.2 wc) whereVal).map (·.1))
  | Option.none => .ok (List.range t.rows.length)

mutual

/-- `Table.check_referential_integrity_for_delete` of
`engine/table.py`, acting on the whole database state (the source
mutates sibling tables through the `self.database` back reference).
Returns immediately when the table has no back reference or the WHERE
column is not its primary key.  `fuel` bounds the cascade recursion,
standing in for the Python call stack. -/
def checkRIForDelete (fuel : Nat) (db : Database) (selfName : String)
    (whereCol : String) (whereVal : PyVal) : Except Err Database :=
  match fuel with
  | 0 => .error .outOfFuel
  | fuel + 1 => do
    let t ← db.getTable selfName
    if !t.hasDatabase then .ok db
    else if t.primaryKeyColumn ≠ some whereCol then .ok db
    else
      db.listTables.foldlM
        (fun db tableName => do
          if tableName = selfName then .ok db
          else do
            let otherAtEntry ← db.getTable tableName
            otherAtEntry.columns.foldlM
              (fun db c => do
                if c.foreignKeyTable = some selfName
                    && c.foreignKeyColumn = some whereCol then do
                  let other ← db.getTable tableName
                  let pk := other.primaryKeyColumn.getD ""
                  let referencing ←
                    tableSelect other (some [pk, c.name]) (some c.name) whereVal
                  if referencing.isEmpty then .ok db
                  else if c.onDelete = "CASCADE" then
                    referencing.foldlM
                      (fun db refRow => do
                        match dictGet refRow pk with
                        | Option.none => .error .indexError
                        | some pkVal => do
                          let db ← checkRIForDelete fuel db tableName pk pkVal
                          let r ← tableDelete fuel db tableName (some pk) pkVal
                          .ok r.1) db
                  else if c.onDelete = "SET NULL" then
                    referencing.foldlM
                      (fun db refRow => do
                        match dictGet refRow pk with
                        | Option.none => .error .indexError
                        | some pkVal => do
                          let r ← tableUpdate fuel db tableName c.name PyVal.none
                            (some pk) pkVal
                          .ok r.1) db
                  else if c.onDelete = "RESTRICT" || c.onDelete = "NO ACTION" then
                    .error (.restrictDelete selfName whereCol tableName c.name)
                  else .ok db
                else .ok db) db) db

/-- `Table.check_referential_integrity_for_update`: applies the ON
UPDATE action of every referencing column when a primary-key or
UNIQUE value changes. -/
def checkRIForUpdate (fuel : Nat) (db : Database) (selfName : String)
    (setCol : String) (oldVal newVal : PyVal) : Except Err Database :=
  match fuel with
  | 0 => .error .outOfFuel
  | fuel + 1 => do
    let t ← db.getTable selfName
    if !t.hasDatabase then .ok db
    else if t.primaryKeyColumn ≠ some setCol
        && !(Table.uniqueColumnsOf t.columns).contains setCol then .ok db
    else
      db.listTables.foldlM
        (fun db tableName => do
          if tableName = selfName then .ok db
          else do
            let otherAtEntry ← db.getTable tableName
            otherAtEntry.columns.foldlM
              (fun db c => do
                if c.foreignKeyTable = some selfName
                    && c.foreignKeyColumn = some setCol then do
                  let other ← db.getTable tableName
                  let pk := other.primaryKeyColumn.getD ""
                  let referencing ←
                    tableSelect other (some [pk, c.name]) (some c.name) oldVal
                  if referencing.isEmpty then .ok db
                  else if c.onUpdate = "CASCADE" then
                    referencing.foldlM
                      (fun db refRow => do
                        match dictGet refRow pk with
                        | Option.none => .error .indexError
                        | some pkVal => do
                          let r ← tableUpdate fuel db tableName c.name newVal
                            (some pk) pkVal
                          .ok r.1) db
                  else if c.onUpdate = "SET NULL" then
                    referencing.foldlM
                      (fun db refRow => do
                        match dictGet refRow pk with
                        | Option.none => .error .indexError
                        | some pkVal => do
                          let r ← tableUpdate fuel db tableName c.name PyVal.none
                            (some pk) pkVal
                          .ok r.1) db
                  else if c.onUpdate = "RESTRICT" || c.onUpdate = "NO ACTION" then
                    .error (.restrictUpdate selfName setCol tableName c.name)
                  else .ok db
                else .ok db) db) db

/-- `Table.update` of `engine/table.py`: locate rows, and for each one
run the referential check when the value changes, update the column
index, then mutate the row.  Returns the updated database and the
affected count. -/
def tableUpdate (fuel : Nat) (db : Database) (tableName : String)
    (setCol : String) (setVal : PyVal) (whereCol : Option String)
    (whereVal : PyVal) : Except Err (Database × Nat) :=
  match fuel with
  | 0 => .error .outOfFuel
  | fuel + 1 => do
    let t ← db.getTable tableName
    if !dictHas t.schemaOf setCol then .error (.columnNotFound setCol t.name)
    else do
      let rowIndices ← locateRows t whereCol whereVal
      let finalDb ← rowIndices.foldlM
        (fun db rowIdx => do
          let t ← db.getTable tableName
          match t.rows.get? rowIdx with
          | Option.none => .error .indexError
          | some row => do
            let oldValue := rowGet row setCol
            let db ←
              if !pyEq oldValue setVal then
                checkRIForUpdate fuel db tableName setCol oldValue setVal
              else .ok db
            let t ← db.getTable tableName
            let idxs ← t.indexes.mapM fun idx =>
              if idx.columnName == setCol then idx.updateVal oldValue setVal rowIdx
              else .ok idx
            match t.rows.get? rowIdx with
            | Option.none => .error .indexError
            | some rowNow => do
              let row2 ← rowSet t.schemaOf rowNow setCol setVal
              let t := { t with indexes := idxs, rows := t.rows.set rowIdx row2 }
              .ok (db.setTable tableName t)) db
      .ok (finalDb, rowIndices.length)

/-- `Table.delete` of `engine/table.py`: the referential check runs
only when BOTH a WHERE column and a non-`None` WHERE value are given;
then rows are located, popped in descending position order with their
index entries removed, and the indexes are rebuilt. -/
def tableDelete (fuel : Nat) (db : Database) (tableName : String)
    (whereCol : Option String) (whereVal : PyVal) : Except Err (Database × Nat) :=
  match fuel with
  | 0 => .error .outOfFuel
  | fuel + 1 => do
    let db ←
      match whereCol with
      | some wc =>
        if whereVal ≠ PyVal.none then checkRIForDelete fuel db tableName wc whereVal
        else .ok db
      | Option.none => .ok db
    let t ← db.getTable tableName
    let rowIndices ← locateRows t whereCol whereVal
    let (rows, indexes, count) ←
      deleteRowsLoop t.rows t.indexes 0 (sortNatDesc rowIndices)
    let t := { t with rows := rows, indexes := indexes }
    let t ← if count > 0 then t.rebuildIndexes else .ok t
    .ok (db.setTable tableName t, count)

end

/-- One column entry of the snapshot document built by
`Database.to_dict` (`engine/database.py`): name, type, the two
constraint flags, and — only when the column has a foreign key — the
referenced table and column.  Faithful to the source, there are NO
`on_delete` / `on_update` entries. -/
structure ColSnapshot where
  name : String
  typeName : String
  isPrimaryKey : Bool
  isUnique : Bool
  foreignKeyTable : Option String
  foreignKeyColumn : Option String
  deriving DecidableEq, Repr

/-- One table entry of the snapshot document. -/
structure TableSnapshot where
  columns : List ColSnapshot
  rows : List RowMap
  deriving DecidableEq, Repr

/-- The whole snapshot document of one database. -/
structure DbSnapshot where
  name : String
  tables : List (String × TableSnapshot)
  deriving DecidableEq, Repr

/-- The per-column serialization step of `Database.to_dict`: the
foreign-key keys are added only when `col.foreign_key_table` is
truthy. -/
def colToDict (c : ColumnDefinition) : ColSnapshot :=
  match c.foreignKeyTable with
  | some ft =>
    if ft ≠ "" then
      { name := c.name, typeName := c.dataType.valueStr,
        isPrimaryKey := c.isPrimaryKey, isUnique := c.isUnique,
        foreignKeyTable := some ft, foreignKeyColumn := c.foreignKeyColumn }
    else
      { name := c.name, typeName := c.dataType.valueStr,
        isPrimaryKey := c.isPrimaryKey, isUnique := c.isUnique,
        foreignKeyTable := Option.none, foreignKeyColumn := Option.none }
  | Option.none =>
    { name := c.name, typeName := c.dataType.valueStr,
      isPrimaryKey := c.isPrimaryKey, isUnique := c.isUnique,
      foreignKeyTable := Option.none, foreignKeyColumn := Option.none }

/-- `Database.to_dict`: serialize every table (columns, then rows in
insertion order).  `Database.save_to_disk` JSON-dumps this document to
a temporary file and renames it over the target; JSON round-trips the
document unchanged, so the on-disk round trip is `dbFromDict ∘ dbToDict`. -/
def dbToDict (db : Database) : DbSnapshot :=
  { name := db.name,
    tables := db.tables.map fun (n, t) =>
      (n, { columns := t.columns.map colToDict, rows := t.rows }) }

/-- The per-column step of `Database.from_dict`: rebuilds a
`ColumnDefinition` from the snapshot.  `on_delete` and `on_update` are
never read, so `ColumnDefinition.__init__` defaults them to RESTRICT. -/
def colFromDict (cd : ColSnapshot) : Except Err ColumnDefinition := do
  let dt ← DataType.fromString cd.typeName
  .ok (mkColumnDefinition cd.name dt cd.isPrimaryKey cd.isUnique
    cd.foreignKeyTable cd.foreignKeyColumn Option.none Option.none)

/-- The per-table step of `Database.from_dict`: rebuild the schema,
construct the table WITHOUT a database back reference
(`Table(table_name, columns)`), append each row through `Row`
validation bypassing the uniqueness checks, then rebuild indexes. -/
def tableFromDict (tableName : String) (td : TableSnapshot) : Except Err Table := do
  let cols ← td.columns.mapM colFromDict
  let t ← mkTable tableName cols false
  let rows ← td.rows.mapM fun rv => mkRow t.schemaOf rv
  Table.rebuildIndexes { t with rows := rows }

/-- `Database.from_dict`. -/
def dbFromDict (sd : DbSnapshot) : Except Err Database := do
  let tables ← sd.tables.mapM fun (n, td) => do
    let t ← tableFromDict n td
    pure (n, t)
  .ok { name := sd.name, tables := tables }

/-- Python truthiness of an engine value (`if result:`). -/
def pyTruthy : PyVal → Bool
  | .none => false
  | .bool b => b
  | .int i => i != 0
  | .float q => q != 0
  | .str s => s ≠ ""

/-- `type(value)` tag, used by the coercion step of
`ComparisonExpression.evaluate` (`type(left) != type(right)`). -/
def pyTypeTag : PyVal → String
  | .none => "NoneType"
  | .int _ => "int"
  | .float _ => "float"
  | .str _ => "str"
  | .bool _ => "bool"

/-- `isinstance(value, (int, float))` — true for `bool` as well, since
`bool` is a subclass of `int`. -/
def pyIsNumeric : PyVal → Bool
  | .int _ => true
  | .float _ => true
  | .bool _ => true
  | _ => false

/-- Python `<=` on two values (used by BETWEEN): equality or strict
order; unorderable pairs raise. -/
def pyLe (a b : PyVal) : Except Err Bool :=
  if pyEq a b then .ok true else pyLt a b

/-- The expression AST of `sql/expressions.py` restricted to the
variants whose evaluation the claims exercise (literal, column,
comparison, logical, IS NULL, BETWEEN, IN).  `LIKE`, aggregate and
datetime-function expressions are separate evaluation paths not needed
here. -/
inductive Expr where
  | lit (v : PyVal)
  | col (name : String)
  | comparison (op : String) (left right : Expr)
  | logical (op : String) (operands : List Expr)
  | isNull (e : Expr) (isNot : Bool)
  | between (e low high : Expr) (isNot : Bool)
  | inList (e : Expr) (values : List Expr) (isNot : Bool)

/-- The tail of a qualified column name: `column_name.split(".", 1)[1]`. -/
def afterFirstDot (s : String) : String :=
  String.mk ((s.data.dropWhile fun c => c ≠ '.').drop 1)

mutual

/-- `Expression.evaluate` of `sql/expressions.py` for the embedded
variants.  The comparison case follows the source exactly: when at
least one side is `None` and the operator is `=`, `<>` or `!=`, the
result is `False` for two `None`s and the XOR of the nullness flags
otherwise (hence `True` when exactly one side is `None`); any other
operator yields `False` on a `None` operand.  Otherwise mismatched
types coerce (numeric pairs pass through, a string on either side
turns both into strings) before the operator applies. -/
def evalExpr (e : Expr) (row : RowMap) : Except Err PyVal :=
  match e with
  | .lit v => .ok v
  | .col name =>
    if dictHas row name then .ok (rowGet row name)
    else if name.data.contains '.' then
      let unq := afterFirstDot name
      if dictHas row unq then .ok (rowGet row unq)
      else .error (.columnNotFound name "")
    else .error (.columnNotFound name "")
  | .comparison op l r => do
    let lv ← evalExpr l row
    let rv ← evalExpr r row
    if lv = PyVal.none || rv = PyVal.none then
      if op = "=" || op = "<>" || op = "!=" then
        .ok (.bool (if lv = PyVal.none && rv = PyVal.none then false
          else (decide (lv = PyVal.none)) != (decide (rv = PyVal.none))))
      else .ok (.bool false)
    else
      let (lv, rv) :=
        if pyTypeTag lv ≠ pyTypeTag rv then
          if pyIsNumeric lv && pyIsNumeric rv then (lv, rv)
          else if pyTypeTag lv = "str" || pyTypeTag rv = "str" then
            (.str (pyStr lv), .str (pyStr rv))
          else (lv, rv)
        else (lv, rv)
      if op = "=" then .ok (.bool (pyEq lv rv))
      else if op = "!=" || op = "<>" then .ok (.bool (!pyEq lv rv))
      else if op = "<" then do
        let b ← pyLt lv rv
        .ok (.bool b)
      else if op = ">" then do
        let b ← pyLt rv lv
        .ok (.bool b)
      else if op = "<=" then do
        let b ← pyLe lv rv
        .ok (.bool b)
      else do
        let b ← pyLe rv lv
        .ok (.bool b)
  | .logical op operands =>
    if op = "NOT" then
      match operands with
      | [e1] => do
        let v ← evalExpr e1 row
        .ok (.bool (!pyTruthy v))
      | _ => .ok PyVal.none
    else if op = "AND" then evalAnd operands row
    else if op = "OR" then evalOr operands row
    else .ok PyVal.none
  | .isNull e1 isNot => do
    let v ← evalExpr e1 row
    let isN := v = PyVal.none
    .ok (.bool (if isNot then !isN else decide isN))
  | .between e1 low high isNot => do
    let v ← evalExpr e1 row
    let lo ← evalExpr low row
    let hi ← evalExpr high row
    if v = PyVal.none || lo = PyVal.none || hi = PyVal.none then .ok (.bool false)
    else do
      let b1 ← pyLe lo v
      let b2 ← pyLe v hi
      let result := b1 && b2
      .ok (.bool (if isNot then !result else result))
  | .inList e1 values isNot => do
    let v ← evalExpr e1 row
    let vs ← evalListE values row
    let result := vs.any (pyEq v)
    .ok (.bool (if isNot then !result else result))

/-- The short-circuit AND loop of `LogicalExpression.evaluate`. -/
def evalAnd (operands : List Expr) (row : RowMap) : Except Err PyVal :=
  match operands with
  | [] => .ok (.bool true)
  | e :: rest => do
    let v ← evalExpr e row
    if !pyTruthy v then .ok (.bool false) else evalAnd rest row

/-- The short-circuit OR loop of `LogicalExpression.evaluate`. -/
def evalOr (operands : List Expr) (row : RowMap) : Except Err PyVal :=
  match operands with
  | [] => .ok (.bool false)
  | e :: rest => do
    let v ← evalExpr e row
    if pyTruthy v then .ok (.bool true) else evalOr rest row

/-- Evaluation of every element of an IN list. -/
def evalListE (values : List Expr) (row : RowMap) : Except Err (List PyVal) :=
  match values with
  | [] => .ok []
  | e :: rest => do
    let v ← evalExpr e row
    let vs ← evalListE rest row
    .ok (v :: vs)

end

/-- Python list slicing `rows[start:stop]` for the non-negative bounds
the parser guarantees (it rejects negative LIMIT and OFFSET). -/
def pySlice (l : List α) (start : Int) (stop : Option Int) : List α :=
  match stop with
  | Option.none => l.drop start.toNat
  | some e => (l.take e.toNat).drop start.toNat

/-- `Executor._apply_limit_offset` of `sql/executor.py`, translated
with Python truthiness kept intact: `offset if offset else 0` and
`start + limit if limit else None` treat BOTH `None` and `0` as
falsy, so a limit of `0` produces no upper bound at all. -/
def applyLimitOffset (rows : List RowMap) (limit offset : Option Int) : List RowMap :=
  if rows.isEmpty then rows
  else
    let start : Int :=
      match offset with
      | some o => if o ≠ 0 then o else 0
      | Option.none => 0
    let stop : Option Int :=
      match limit with
      | some l => if l ≠ 0 then some (start + l) else Option.none
      | Option.none => Option.none
    pySlice rows start stop

/-- The sort key of `Executor._apply_order_by`:
`(row[col_name] is None, row[col_name])`. -/
def orderKey (colName : String) (row : RowMap) : Bool × PyVal :=
  (rowGet row colName = PyVal.none, rowGet row colName)

/-- Python tuple `<=` on the sort keys: the nullness flag first
(`False < True`), then the value. -/
def orderKeyLe (a b : Bool × PyVal) : Bool :=
  if a.1 = b.1 then pyValLe a.2 b.2 else !a.1

/-- `Executor._apply_order_by`: validates the listed columns against
the first result row, then applies one stable sort per key, iterating
the keys in reverse so the first key is most significant.  A DESC
direction sets `reverse=True` on `list.sort`, i.e. a stable sort by
the REVERSED key order — which sends the `(is None, value)` nullness
flag to the front as well. -/
def applyOrderBy (rows : List RowMap) (orderBy : List (String × String)) :
    Except Err (List RowMap) :=
  if rows.isEmpty || orderBy.isEmpty then .ok rows
  else
    match orderBy.find? (fun p => !dictHas (rows.headD []) p.1) with
    | some p => .error (.columnNotFound p.1 "result set")
    | Option.none =>
      .ok (orderBy.reverse.foldl
        (fun rs (p : String × String) =>
          let le : RowMap → RowMap → Bool :=
            if p.2 = "DESC" then
              fun r1 r2 => orderKeyLe (orderKey p.1 r2) (orderKey p.1 r1)
            else
              fun r1 r2 => orderKeyLe (orderKey p.1 r1) (orderKey p.1 r2)
          stableSortBy le rs) rows)

/-- `tuple(sorted(row.items()))`: the dedup key of
`Executor._apply_distinct`; keys within one row are distinct, so the
sort is by key name. -/
def rowSortedItems (row : RowMap) : List (String × PyVal) :=
  stableSortBy (fun a b => strLe a.1 b.1) row

/-- Python `==` on two dedup keys. -/
def rowItemsEq (a b : List (String × PyVal)) : Bool :=
  a.length == b.length && (a.zip b).all fun (p, q) => p.1 == q.1 && pyEq p.2 q.2

/-- `Executor._apply_distinct`: keep the first row per dedup key,
preserving order. -/
def applyDistinct (rows : List RowMap) : List RowMap :=
  if rows.isEmpty then rows
  else
    (rows.foldl
      (fun (acc : List (List (String × PyVal)) × List RowMap) row =>
        let key := rowSortedItems row
        if acc.1.any (rowItemsEq key) then acc
        else (acc.1 ++ [key], acc.2 ++ [row]))
      ([], [])).2

/-- The attribute names assigned by `SelectCommand.__init__` of
`sql/parser.py` (lines 127-153), in assignment order.  An attribute
read on a `SelectCommand` instance succeeds exactly for these names;
any other name raises `AttributeError`. -/
def selectCommandFields : List String :=
  ["columns", "table_name", "where_clause", "join_table", "join_left_col",
   "join_right_col", "join_type", "order_by", "limit", "offset", "distinct",
   "aggregates", "group_by", "having_clause", "where_col", "where_val"]

/-- Attribute access on a `SelectCommand` instance. -/
def selectCommandGetAttr (name : String) : Except Err Unit :=
  if selectCommandFields.contains name then .ok ()
  else .error (.attributeError name)

/-- The embedded fields of a parsed SELECT without join or aggregates
(the shape `_parse_select` produces for a plain query): `columns` is
`None` for `*`, `orderBy` empty models `order_by = None`. -/
structure SelectCommand where
  columns : Option (List String) := Option.none
  tableName : String
  whereClause : Option Expr := Option.none
  orderBy : List (String × String) := []
  limit : Option Int := Option.none
  offset : Option Int := Option.none
  distinct : Bool := false
  whereCol : Option String := Option.none
  whereVal : PyVal := .none

/-- `Executor._execute_select` of `sql/executor.py` (lines 334-383),
for a command with neither join nor aggregates: fetch the table,
filter (expression WHERE, or the legacy single-equality path), apply
ORDER BY, DISTINCT and OFFSET/LIMIT — and then, at line 374, read
`command.column_aliases`.  `SelectCommand.__init__` never assigns that
attribute, so the read raises `AttributeError`; because the
surrounding handler catches only `ValueError`, the `AttributeError`
escapes `execute` untyped. -/
def executeSelectPlain (db : Database) (cmd : SelectCommand) :
    Except Err (List RowMap) := do
  let t ← db.getTable cmd.tableName
  let result ←
    match cmd.whereClause with
    | some wexpr => do
      let allRows ← tableSelect t cmd.columns Option.none .none
      allRows.filterM fun row => do
        let v ← evalExpr wexpr row
        pure (pyTruthy v)
    | Option.none => tableSelect t cmd.columns cmd.whereCol cmd.whereVal
  let result ←
    if !cmd.orderBy.isEmpty then applyOrderBy result cmd.orderBy else .ok result
  let result := if cmd.distinct then applyDistinct result else result
  let result := applyLimitOffset result cmd.limit cmd.offset
  let _ ← selectCommandGetAttr "column_aliases"
  .ok result

/-- A token of `sql/tokenizer.py`: kind tag and (post-processed)
value. -/
structure Token where
  typ : String
  value : String
  deriving DecidableEq, Repr

/-- Word characters for the `\b` boundaries and the IDENTIFIER rule. -/
def isWordChar (c : Char) : Bool := c.isAlphanum || c = '_'

/-- The keyword vocabulary of `Tokenizer.TOKEN_PATTERNS`, exactly as
listed in the source alternation.  Note what is ABSENT: no
FLOAT / DATE / TIME / DATETIME, none of the aliases
REAL / DOUBLE / DECIMAL / TIMESTAMP, and no LEFT / RIGHT / FULL /
OUTER / GROUP / HAVING / DISTINCT / AS / IS / LIKE / IN / BETWEEN /
CASCADE / RESTRICT keyword either. -/
def keywordList : List String :=
  ["CREATE", "DROP", "USE", "SHOW", "DESCRIBE", "DESC", "TABLE", "TABLES",
   "DATABASE", "DATABASES", "INSERT", "INTO", "VALUES", "SELECT", "FROM",
   "WHERE", "UPDATE", "SET", "DELETE", "INNER", "JOIN", "ON", "PRIMARY",
   "KEY", "UNIQUE", "REFERENCES", "INT", "STRING", "BOOL", "TRUE", "FALSE",
   "NULL", "AND", "OR", "NOT", "ORDER", "BY", "ASC", "LIMIT", "OFFSET"]

/-- The single-quote character (written by code point to keep the
development free of quote literals). -/
def squote : Char := Char.ofNat 39

/-- Match the NUMBER pattern at the head of the character list:
`-?\d+(?:\.\d+)?`, greedy. -/
def matchNumber (l : List Char) : Option Nat :=
  let (sgn, rest) := match l with
    | '-' :: r => (1, r)
    | r => (0, r)
  let ds := rest.takeWhile Char.isDigit
  if ds.isEmpty then Option.none
  else
    let rest2 := rest.drop ds.length
    match rest2 with
    | '.' :: tl =>
      let fs := tl.takeWhile Char.isDigit
      if fs.isEmpty then some (sgn + ds.length)
      else some (sgn + ds.length + 1 + fs.length)
    | _ => some (sgn + ds.length)

/-- Match the STRING pattern: a single-quoted run of non-quote
characters. -/
def matchStringTok (l : List Char) : Option Nat :=
  match l with
  | c :: rest =>
    if c = squote then
      let body := rest.takeWhile fun d => d ≠ squote
      match rest.drop body.length with
      | d :: _ => if d = squote then some (body.length + 2) else Option.none
      | [] => Option.none
    else Option.none
  | [] => Option.none

/-- Match a COMPARISON operator, two-character alternatives first, as
in the source alternation `<=|>=|!=|<>|<|>`. -/
def matchComparison (l : List Char) : Option Nat :=
  match l with
  | '<' :: '=' :: _ => some 2
  | '>' :: '=' :: _ => some 2
  | '!' :: '=' :: _ => some 2
  | '<' :: '>' :: _ => some 2
  | '<' :: _ => some 1
  | '>' :: _ => some 1
  | _ => Option.none

/-- Match the KEYWORD pattern: with a word boundary before the
position, the maximal word-character run must (case-insensitively)
equal one of the keywords; the trailing `\b` rules out proper-prefix
matches, so this is equivalent to the ordered alternation of the
source. -/
def matchKeyword (boundaryBefore : Bool) (l : List Char) : Option Nat :=
  if !boundaryBefore then Option.none
  else
    let w := l.takeWhile isWordChar
    if w.isEmpty then Option.none
    else if keywordList.contains (pyUpper (String.mk w)) then some w.length
    else Option.none

/-- Match the IDENTIFIER pattern `[a-zA-Z_][a-zA-Z0-9_]*`. -/
def matchIdentifier (l : List Char) : Option Nat :=
  match l with
  | c :: _ =>
    if c.isAlpha || c = '_' then some ((l.takeWhile isWordChar).length)
    else Option.none
  | [] => Option.none

/-- Try the token alternatives in the order of `TOKEN_PATTERNS`;
Python regex alternation takes the first alternative that matches at
the position. -/
def tryMatch (boundaryBefore : Bool) (l : List Char) : Option (String × Nat) :=
  match matchNumber l with
  | some n => some ("NUMBER", n)
  | Option.none =>
  match matchStringTok l with
  | some n => some ("STRING", n)
  | Option.none =>
  match matchComparison l with
  | some n => some ("COMPARISON", n)
  | Option.none =>
  match matchKeyword boundaryBefore l with
  | some n => some ("KEYWORD", n)
  | Option.none =>
  match matchIdentifier l with
  | some n => some ("IDENTIFIER", n)
  | Option.none =>
  match l with
  | '=' :: _ => some ("EQUALS", 1)
  | ',' :: _ => some ("COMMA", 1)
  | '(' :: _ => some ("LPAREN", 1)
  | ')' :: _ => some ("RPAREN", 1)
  | ';' :: _ => some ("SEMICOLON", 1)
  | '*' :: _ => some ("STAR", 1)
  | '.' :: _ => some ("DOT", 1)
  | c :: _ => if c.isWhitespace then some ("WHITESPACE", ((l.takeWhile Char.isWhitespace).length)) else Option.none
  | [] => Option.none

/-- Post-processing of a matched token, as in `Tokenizer.tokenize`:
keywords are uppercased, strings lose their surrounding quotes. -/
def mkToken (typ : String) (raw : List Char) : Token :=
  if typ = "KEYWORD" then { typ := typ, value := pyUpper (String.mk raw) }
  else if typ = "STRING" then
    { typ := typ, value := String.mk ((raw.drop 1).take (raw.length - 2)) }
  else { typ := typ, value := String.mk raw }

/-- The scan loop of `Tokenizer.tokenize` over `finditer`: emit
non-whitespace matches; `position` is updated only when a
non-whitespace token is appended (the whitespace branch `continue`s
before the update); unmatched characters are skipped by the regex
engine.  `lastEnd` carries `position`. -/
def tokenizeAux (chars : List Char) (fuel : Nat) (pos lastEnd : Nat)
    (acc : List Token) : List Token × Nat :=
  match fuel with
  | 0 => (acc.reverse, lastEnd)
  | fuel + 1 =>
    let l := chars.drop pos
    if l.isEmpty then (acc.reverse, lastEnd)
    else
      let boundaryBefore :=
        pos = 0 ||
          (match chars.get? (pos - 1) with
            | some c => !isWordChar c
            | Option.none => true)
      match tryMatch boundaryBefore l with
      | some (typ, n) =>
        if typ = "WHITESPACE" then tokenizeAux chars fuel (pos + n) lastEnd acc
        else tokenizeAux chars fuel (pos + n) (pos + n)
          (mkToken typ (l.take n) :: acc)
      | Option.none => tokenizeAux chars fuel (pos + 1) lastEnd acc

/-- `Tokenizer.tokenize` of `sql/tokenizer.py`: scan, then fail if
non-whitespace input remains after the last match. -/
def tokenize (sql : String) : Except Err (List Token) :=
  let chars := sql.data
  let (tokens, lastEnd) := tokenizeAux chars (chars.length + 1) 0 0 []
  if lastEnd ≠ chars.length
      && !((chars.drop lastEnd).dropWhile Char.isWhitespace).isEmpty then
    .error (.tokenError lastEnd)
  else .ok tokens

/-- The parsed commands produced by the embedded parser fragments. -/
inductive ParsedCommand where
  | createDatabase (name : String)
  | createTable (tableName : String) (columns : List ColumnDefinition)
  | insertCmd (tableName : String) (columns : Option (List String))
      (values : List PyVal)
  deriving DecidableEq, Repr

/-- `Parser.peek`. -/
def peekT (ts : List Token) (pos : Nat) : Option Token := ts.get? pos

/-- `Parser.consume` with no expectation. -/
def consumeAny (ts : List Token) (pos : Nat) : Except Err (Token × Nat) :=
  match ts.get? pos with
  | some tok => .ok (tok, pos + 1)
  | Option.none => .error .parseEndOfInput

/-- `Parser.consume` with an expected value. -/
def consumeVal (ts : List Token) (pos : Nat) (v : String) : Except Err (Token × Nat) :=
  match ts.get? pos with
  | some tok =>
    if tok.value = v then .ok (tok, pos + 1) else .error (.parseExpectedValue v)
  | Option.none => .error (.parseExpectedValue v)

/-- `Parser.consume` with an expected token type. -/
def consumeType (ts : List Token) (pos : Nat) (ty : String) : Except Err (Token × Nat) :=
  match ts.get? pos with
  | some tok =>
    if tok.typ = ty then .ok (tok, pos + 1)
    else .error (.parseExpectedType ty tok.value)
  | Option.none => .error .parseEndOfInput

/-- `Parser._consume_optional_semicolon`. -/
def consumeOptionalSemicolon (ts : List Token) (pos : Nat) : Nat :=
  match peekT ts pos with
  | some tok => if tok.typ = "SEMICOLON" then pos + 1 else pos
  | Option.none => pos

/-- The column-definition loop of `Parser._parse_create_table`: column
name (IDENTIFIER), type (a token that MUST be of type KEYWORD, then
`DataType.from_string`), optional PRIMARY KEY or UNIQUE, optional
`REFERENCES ident ( ident )`.  Faithful to the source, nothing after
the closing parenthesis of REFERENCES is consumed: there is no
handling of ON DELETE / ON UPDATE at all, and `ColumnDefinition` is
built without actions (defaulting both to RESTRICT). -/
def parseColumnDefs (ts : List Token) (fuel : Nat) (pos : Nat)
    (acc : List ColumnDefinition) : Except Err (List ColumnDefinition × Nat) :=
  match fuel with
  | 0 => .error .outOfFuel
  | fuel + 1 => do
    let (colTok, pos) ← consumeType ts pos "IDENTIFIER"
    let (typeTok, pos) ← consumeType ts pos "KEYWORD"
    let colType ←
      match DataType.fromString typeTok.value with
      | .ok dt => Except.ok dt
      | .error _ => Except.error (.parseInvalidDataType typeTok.value)
    let (isPk, isUnique, pos) ←
      match peekT ts pos with
      | some tok =>
        if tok.value = "PRIMARY" then do
          let (_, pos) ← consumeVal ts pos "PRIMARY"
          let (_, pos) ← consumeVal ts pos "KEY"
          Except.ok (true, false, pos)
        else if tok.value = "UNIQUE" then do
          let (_, pos) ← consumeVal ts pos "UNIQUE"
          Except.ok (false, true, pos)
        else Except.ok (false, false, pos)
      | Option.none => Except.ok (false, false, pos)
    let (fkTable, fkColumn, pos) ←
      match peekT ts pos with
      | some tok =>
        if tok.value = "REFERENCES" then do
          let (_, pos) ← consumeVal ts pos "REFERENCES"
          let (ftTok, pos) ← consumeType ts pos "IDENTIFIER"
          let (_, pos) ← consumeVal ts pos "("
          let (fcTok, pos) ← consumeType ts pos "IDENTIFIER"
          let (_, pos) ← consumeVal ts pos ")"
          Except.ok (some ftTok.value, some fcTok.value, pos)
        else Except.ok (Option.none, Option.none, pos)
      | Option.none => Except.ok (Option.none, Option.none, pos)
    let acc := acc ++ [mkColumnDefinition colTok.value colType isPk isUnique
      fkTable fkColumn Option.none Option.none]
    match peekT ts pos with
    | some tok =>
      if tok.value = "," then do
        let (_, pos) ← consumeVal ts pos ","
        parseColumnDefs ts fuel pos acc
      else .ok (acc, pos)
    | Option.none => .ok (acc, pos)

/-- `Parser._parse_create_table` (entered after CREATE was consumed
and TABLE peeked). -/
def parseCreateTable (ts : List Token) (pos : Nat) : Except Err ParsedCommand := do
  let (_, pos) ← consumeVal ts pos "TABLE"
  let (nameTok, pos) ← consumeType ts pos "IDENTIFIER"
  let (_, pos) ← consumeVal ts pos "("
  let (columns, pos) ← parseColumnDefs ts (ts.length + 1) pos []
  let (_, pos) ← consumeVal ts pos ")"
  let _ := consumeOptionalSemicolon ts pos
  .ok (.createTable nameTok.value columns)

/-- `Parser._parse_create`: dispatch on DATABASE or TABLE. -/
def parseCreate (ts : List Token) : Except Err ParsedCommand := do
  let (_, pos) ← consumeVal ts 0 "CREATE"
  match peekT ts pos with
  | Option.none => .error (.parseUnexpected "Expected DATABASE or TABLE after CREATE")
  | some tok =>
    if tok.value = "DATABASE" then do
      let (_, pos) ← consumeVal ts pos "DATABASE"
      let (nameTok, pos) ← consumeType ts pos "IDENTIFIER"
      let _ := consumeOptionalSemicolon ts pos
      .ok (.createDatabase nameTok.value)
    else if tok.value = "TABLE" then parseCreateTable ts pos
    else .error (.parseUnexpected "Expected DATABASE or TABLE after CREATE")

/-- The lookahead of `Parser._parse_insert` deciding whether a
parenthesis opens a column list (identifiers and commas up to a
closing parenthesis followed by VALUES). -/
def insertLookaheadIsColumnList (ts : List Token) (fuel : Nat) (pos : Nat) : Bool :=
  match fuel with
  | 0 => false
  | fuel + 1 =>
    match ts.get? pos with
    | Option.none => false
    | some tok =>
      if tok.typ = "RPAREN" then
        match ts.get? (pos + 1) with
        | some tok2 => tok2.value = "VALUES"
        | Option.none => false
      else if tok.typ = "IDENTIFIER" || tok.typ = "COMMA" then
        insertLookaheadIsColumnList ts fuel (pos + 1)
      else false

/-- The column-list loop of `_parse_insert`. -/
def parseInsertColumns (ts : List Token) (fuel : Nat) (pos : Nat)
    (acc : List String) : Except Err (List String × Nat) :=
  match fuel with
  | 0 => .error .outOfFuel
  | fuel + 1 => do
    let (colTok, pos) ← consumeType ts pos "IDENTIFIER"
    let acc := acc ++ [colTok.value]
    match peekT ts pos with
    | some tok =>
      if tok.value = "," then do
        let (_, pos) ← consumeVal ts pos ","
        parseInsertColumns ts fuel pos acc
      else .ok (acc, pos)
    | Option.none => .ok (acc, pos)

/-- The VALUES loop of `_parse_insert`: NUMBER (int first, float on
failure), STRING, TRUE/FALSE, or NULL (parsed to Python `None`). -/
def parseInsertValues (ts : List Token) (fuel : Nat) (pos : Nat)
    (acc : List PyVal) : Except Err (List PyVal × Nat) :=
  match fuel with
  | 0 => .error .outOfFuel
  | fuel + 1 => do
    match peekT ts pos with
    | Option.none => .error (.parseUnexpected "Expected value in VALUES clause")
    | some tok => do
      let (v, pos) ←
        if tok.typ = "NUMBER" then
          match pyIntOfString tok.value with
          | some i => Except.ok (PyVal.int i, pos + 1)
          | Option.none =>
            match pyFloatOfString tok.value with
            | some q => Except.ok (PyVal.float q, pos + 1)
            | Option.none =>
              Except.error (.parseUnexpected "Unexpected value in VALUES clause")
        else if tok.typ = "STRING" then Except.ok (PyVal.str tok.value, pos + 1)
        else if tok.value = "TRUE" || tok.value = "FALSE" then
          Except.ok (PyVal.bool (tok.value = "TRUE"), pos + 1)
        else if tok.value = "NULL" then Except.ok (PyVal.none, pos + 1)
        else Except.error (.parseUnexpected "Unexpected value in VALUES clause")
      let acc := acc ++ [v]
      match peekT ts pos with
      | some tok2 =>
        if tok2.value = "," then do
          let (_, pos) ← consumeVal ts pos ","
          parseInsertValues ts fuel pos acc
        else .ok (acc, pos)
      | Option.none => .ok (acc, pos)

/-- `Parser._parse_insert` of `sql/parser.py`. -/
def parseInsert (ts : List Token) : Except Err ParsedCommand := do
  let (_, pos) ← consumeVal ts 0 "INSERT"
  let (_, pos) ← consumeVal ts pos "INTO"
  let (nameTok, pos) ← consumeType ts pos "IDENTIFIER"
  let (columns, pos) ←
    match peekT ts pos with
    | some tok =>
      if tok.typ = "LPAREN"
          && insertLookaheadIsColumnList ts (ts.length + 1) (pos + 1) then do
        let (_, pos) ← consumeVal ts pos "("
        let (cols, pos) ← parseInsertColumns ts (ts.length + 1) pos []
        let (_, pos) ← consumeVal ts pos ")"
        Except.ok (some cols, pos)
      else Except.ok ((Option.none : Option (List String)), pos)
    | Option.none => Except.ok ((Option.none : Option (List String)), pos)
  let (_, pos) ← consumeVal ts pos "VALUES"
  let (_, pos) ← consumeVal ts pos "("
  let (values, pos) ← parseInsertValues ts (ts.length + 1) pos []
  let (_, pos) ← consumeVal ts pos ")"
  let _ := consumeOptionalSemicolon ts pos
  .ok (.insertCmd nameTok.value columns values)

/-- Executor-style insert: fetch the table, run `Table.insert` with
the database as the back-reference target, write the mutated table
back (modelling the Python object aliasing of `database.get_table`). -/
def dbInsert (db : Database) (tableName : String) (values : RowMap) :
    Except Err Database := do
  let t ← db.getTable tableName
  let (r, t2) := tableInsert (some db) t values
  let db := db.setTable tableName t2
  match r with
  | .ok _ => .ok db
  | .error e => .error e

/-- The referential-integrity invariant of the spec: for every
foreign-key column `c` of a table referencing `U.k`, every non-NULL
value stored in `c` occurs in column `k` of `U`. -/
def fkInvariant (db : Database) : Bool :=
  db.tables.all fun p =>
    p.2.columns.all fun c =>
      match c.foreignKeyTable with
      | some ft =>
        if ft = "" then true
        else
          p.2.rows.all fun r =>
            let v := rowGet r c.name
            if v = PyVal.none then true
            else
              match dictGet db.tables ft with
              | some u =>
                u.rows.any fun s => pyEq (rowGet s (c.foreignKeyColumn.getD "")) v
              | Option.none => false
      | Option.none => true

/-- Fixture for C1: a database with table `t(id INT PRIMARY KEY)`
holding one row, built exactly as the executor builds it (no database
back reference on the table). -/
def c1Db : Except Err Database := do
  let t ← mkTable "t" [{ name := "id", dataType := .INT, isPrimaryKey := true }] false
  let db : Database := { name := "d", tables := [("t", t)] }
  dbInsert db "t" [("id", .int 1)]

/-- Fixture for C1: executing the plain `SELECT * FROM t`. -/
def c1Run : Except Err (List RowMap) := do
  let db ← c1Db
  executeSelectPlain db { tableName := "t" }

/-- Fixture for C2: tables `u(id INT PRIMARY KEY)` and
`o(oid INT PRIMARY KEY, uid INT REFERENCES u(id) ON DELETE CASCADE)`
with one row each. -/
def c2Db : Except Err Database := do
  let u ← mkTable "u" [{ name := "id", dataType := .INT, isPrimaryKey := true }] false
  let o ← mkTable "o"
    [{ name := "oid", dataType := .INT, isPrimaryKey := true },
     { name := "uid", dataType := .INT, foreignKeyTable := some "u",
       foreignKeyColumn := some "id", onDelete := "CASCADE" }] false
  let db : Database := { name := "d", tables := [("u", u), ("o", o)] }
  let db ← dbInsert db "u" [("id", .int 1)]
  dbInsert db "o" [("oid", .int 10), ("uid", .int 1)]

/-- Fixture for C2: the snapshot round trip `from_dict(to_dict(db))`
(the JSON dump and the atomic file rename in between preserve the
document verbatim). -/
def c2RoundTrip : Except Err Database := do
  let db ← c2Db
  dbFromDict (dbToDict db)

/-- The ON DELETE action recorded for column `o.uid` of a database. -/
def onDeleteOfOUid (db : Database) : Option String := do
  let o ← dictGet db.tables "o"
  let c ← o.columns.find? fun c => c.name = "uid"
  some c.onDelete

/-- Fixture for C3: the CREATE TABLE statement of scenario S3. -/
def c3Sql : String :=
  "CREATE TABLE o(oid INT PRIMARY KEY, uid INT REFERENCES u(id) ON DELETE CASCADE);"

/-- Fixture for C3: tokenize and parse the S3 statement. -/
def c3Parse : Except Err ParsedCommand := do
  let ts ← tokenize c3Sql
  parseCreate ts

/-- Fixture for C4: create `t(id INT PRIMARY KEY, name STRING
UNIQUE)`, insert `(1, a)`, then attempt `(2, a)`; returns the second
insert result together with the table state before and after it. -/
def c4Run : Except Err ((Except Err Nat) × Table × Table) := do
  let t0 ← mkTable "t"
    [{ name := "id", dataType := .INT, isPrimaryKey := true },
     { name := "name", dataType := .STRING, isUnique := true }] false
  let (r1, t1) := tableInsert Option.none t0 [("id", .int 1), ("name", .str "a")]
  match r1 with
  | .error e => .error e
  | .ok _ =>
    let (r2, t2) := tableInsert Option.none t1 [("id", .int 2), ("name", .str "a")]
    .ok (r2, t1, t2)

/-- Fixture for C5: `u(id INT PRIMARY KEY)` with row 1 and
`o(oid INT PRIMARY KEY, uid INT REFERENCES u(id))` (default ON DELETE
RESTRICT) with row (10, 1).  Tables carry the database back reference,
the most charitable reading for the claim. -/
def c5Db : Except Err Database := do
  let u ← mkTable "u" [{ name := "id", dataType := .INT, isPrimaryKey := true }] true
  let o ← mkTable "o"
    [{ name := "oid", dataType := .INT, isPrimaryKey := true },
     { name := "uid", dataType := .INT, foreignKeyTable := some "u",
       foreignKeyColumn := some "id" }] true
  let db : Database := { name := "d", tables := [("u", u), ("o", o)] }
  let db ← dbInsert db "u" [("id", .int 1)]
  dbInsert db "o" [("oid", .int 10), ("uid", .int 1)]

/-- Fixture for C5: `DELETE FROM u` with no WHERE clause — the
executor legacy path calls `table.delete(None, None)`. -/
def c5DeleteAll : Except Err (Database × Nat) := do
  let db ← c5Db
  tableDelete 10 db "u" Option.none PyVal.none

/-- Fixture for C5 (contrast): the same delete WITH the WHERE clause
`id = 1` does run the referential check and is blocked by RESTRICT. -/
def c5DeleteWhere : Except Err (Database × Nat) := do
  let db ← c5Db
  tableDelete 10 db "u" (some "id") (.int 1)

/-- Fixture for C7: a CREATE TABLE using the FLOAT type name. -/
def c7Parse : Except Err ParsedCommand := do
  let ts ← tokenize "CREATE TABLE t (x FLOAT PRIMARY KEY);"
  parseCreate ts

/-- Fixture for C7: the REAL alias behaves the same way. -/
def c7ParseReal : Except Err ParsedCommand := do
  let ts ← tokenize "CREATE TABLE t (x REAL PRIMARY KEY);"
  parseCreate ts

/-- Fixture for C7 (contrast): INT is in the keyword list and
parses. -/
def c7ParseInt : Except Err ParsedCommand := do
  let ts ← tokenize "CREATE TABLE t2 (x INT PRIMARY KEY);"
  parseCreate ts

/-- Fixture for C10: parse `INSERT INTO t VALUES (1, NULL);` and run
the insert against `t(id INT PRIMARY KEY, v INT)` the way
`_execute_insert` does (zip the column names with the values). -/
def c10InsertNull : Except Err Nat := do
  let ts ← tokenize "INSERT INTO t VALUES (1, NULL);"
  let cmd ← parseInsert ts
  match cmd with
  | .insertCmd _ _ values => do
    let t ← mkTable "t"
      [{ name := "id", dataType := .INT, isPrimaryKey := true },
       { name := "v", dataType := .INT }] false
    let valuesDict := (t.schemaOf.map (·.1)).zip values
    let (r, _) := tableInsert Option.none t valuesDict
    r
  | _ => .error (.parseUnexpected "not an insert")

/-- Fixture for C10: `u(id INT PRIMARY KEY)` referenced by
`o.uid INT` with ON DELETE SET NULL, one row each; deleting the
referenced row triggers the SET NULL action, which tries to write
`None` into the INT column `uid`. -/
def c10SetNullDb : Except Err Database := do
  let u ← mkTable "u" [{ name := "id", dataType := .INT, isPrimaryKey := true }] true
  let o ← mkTable "o"
    [{ name := "oid", dataType := .INT, isPrimaryKey := true },
     { name := "uid", dataType := .INT, foreignKeyTable := some "u",
       foreignKeyColumn := some "id", onDelete := "SET NULL" }] true
  let db : Database := { name := "d", tables := [("u", u), ("o", o)] }
  let db ← dbInsert db "u" [("id", .int 1)]
  dbInsert db "o" [("oid", .int 10), ("uid", .int 1)]

/-- Fixture for C10: the delete that triggers SET NULL. -/
def c10SetNullRun : Except Err (Database × Nat) := do
  let db ← c10SetNullDb
  tableDelete 10 db "u" (some "id") (.int 1)

/-- Helper for C10: a successful `_validate_type` never returns
`None` — every success branch wraps a freshly built int, float,
string or bool. -/
theorem validate_ok_not_null (c : String) (t : DataType) (v w : PyVal)
    (h : validateType c v t = .ok w) : w ≠ PyVal.none := by
  cases t <;> cases v <;>
    simp only [validateType, pyIntCoerce, pyFloatCoerce] at h <;>
    (try split at h) <;> (try split at h) <;>
    all_goals first
      | (cases h; simp)
      | simp_all

/-- C1: executing a well-formed SELECT without join or aggregates
against an existing table does NOT return the row maps: at executor.py
line 374 the code reads `command.column_aliases`, an attribute that
`SelectCommand.__init__` never assigns, so the query dies with an
untyped `AttributeError` instead of any error of the taxonomy.  The
second conjunct exhibits the missing attribute directly. -/
theorem c1_simple_select_raises_attribute_error :
    c1Run = .error (.attributeError "column_aliases")
      ∧ selectCommandFields.contains "column_aliases" = false := by
  exact ⟨rfl, rfl⟩

/-- C2: the snapshot round trip does NOT preserve referential
actions.  `Database.to_dict` writes no `on_delete`/`on_update` entries
and `Database.from_dict` never reads them, so a column created with ON
DELETE CASCADE comes back with the RESTRICT default, while the rows
themselves survive the trip. -/
theorem c2_snapshot_roundtrip_loses_fk_actions :
    c2Db.map onDeleteOfOUid = .ok (some "CASCADE")
      ∧ c2RoundTrip.map onDeleteOfOUid = .ok (some "RESTRICT")
      ∧ c2RoundTrip.map (fun db => (dictGet db.tables "o").map (·.rows))
          = .ok (some [[("oid", .int 10), ("uid", .int 1)]]) := by
  exact ⟨rfl, rfl, rfl⟩

/-- C3: the S3 CREATE TABLE statement with `ON DELETE CASCADE` does
not parse.  `_parse_create_table` consumes nothing after the closing
parenthesis of `REFERENCES u(id)`, so the next token `ON` fails the
`consume(")")` step with a parse error; the grammar of the claim is
not accepted. -/
theorem c3_on_delete_cascade_syntax_rejected :
    c3Parse = .error (.parseExpectedValue ")") := by
  exact rfl

/-- C4: `Table.insert` is NOT atomic on error.  Inserting `(2, a)`
next to an existing `(1, a)` passes the primary-key index, fails the
unique index on `name`, and returns the error with the row list
unchanged (second component `true`) but the indexes CHANGED (third
component `false`): the `id` index still maps 2 to the phantom row
position 1, as the last component shows. -/
theorem c4_failed_insert_leaves_stale_index_entry :
    c4Run.map (fun p =>
        (p.1, p.2.2.rows == p.2.1.rows, p.2.2.indexes == p.2.1.indexes,
          (indexFind p.2.2.indexes "id").map fun i => i.lookupVal (.int 2)))
      = .ok (.error (.uniqueViolation "name"), true, false, some [1]) := by
  exact rfl

/-- C5: referential integrity is NOT an invariant of every engine
operation.  On a state satisfying the invariant, `DELETE FROM u`
without a WHERE clause (`Table.delete(None, None)`) skips
`check_referential_integrity_for_delete` entirely — the guard requires
both a WHERE column and a non-None value — deletes the referenced row
and reports success, leaving `o.uid = 1` orphaned; the same delete
WITH `WHERE id=1` is correctly blocked by RESTRICT. -/
theorem c5_unfiltered_delete_breaks_fk_invariant :
    c5Db.map fkInvariant = .ok true
      ∧ c5DeleteAll.map (fun p => (p.2, fkInvariant p.1)) = .ok (1, false)
      ∧ c5DeleteWhere = .error (.restrictDelete "u" "id" "o" "uid") := by
  exact ⟨rfl, rfl, rfl⟩

/-- C6 counterexample: the claim says a comparison with one NULL
operand is false, but `ComparisonExpression.evaluate` returns the XOR
of the nullness flags for `=`, `!=` and `<>`, so `NULL = 5` evaluates
to TRUE. -/
theorem c6_null_eq_value_is_true :
    evalExpr (.comparison "=" (.lit PyVal.none) (.lit (.int 5))) [] = .ok (.bool true) := by
  exact rfl

/-- C6 as amended: with BOTH operands NULL, `=`, `!=` and `<>`
evaluate to false; with EXACTLY ONE operand NULL they evaluate to
true; the ordering operators yield false on any NULL operand; and IS
NULL is the genuine absence test. -/
theorem c6_null_comparison_semantics :
    (∀ op : String, (op = "=" ∨ op = "!=" ∨ op = "<>") →
      evalExpr (.comparison op (.lit PyVal.none) (.lit PyVal.none)) [] = .ok (.bool false))
    ∧ (∀ (op : String) (r : PyVal), (op = "=" ∨ op = "!=" ∨ op = "<>") →
        r ≠ PyVal.none →
        evalExpr (.comparison op (.lit PyVal.none) (.lit r)) [] = .ok (.bool true)
          ∧ evalExpr (.comparison op (.lit r) (.lit PyVal.none)) [] = .ok (.bool true))
    ∧ (∀ (op : String) (l r : PyVal),
        (op = "<" ∨ op = ">" ∨ op = "<=" ∨ op = ">=") →
        (l = PyVal.none ∨ r = PyVal.none) →
        evalExpr (.comparison op (.lit l) (.lit r)) [] = .ok (.bool false))
    ∧ (∀ v : PyVal,
        evalExpr (.isNull (.lit v) false) [] = .ok (.bool (decide (v = PyVal.none)))) := by
  refine ⟨?_, ?_, ?_, ?_⟩
  · intro op hop
    rcases hop with h | h | h <;> subst h <;> rfl
  · intro op r hop hr
    rcases hop with h | h | h <;> subst h <;>
      (cases r with
        | none => exact absurd rfl hr
        | int i => exact ⟨rfl, rfl⟩
        | float q => exact ⟨rfl, rfl⟩
        | str s => exact ⟨rfl, rfl⟩
        | bool b => exact ⟨rfl, rfl⟩)
  · intro op l r hop hnull
    rcases hop with h | h | h | h <;> subst h <;>
      (rcases hnull with h2 | h2 <;> subst h2 <;>
        first
        | rfl
        | (cases l <;> rfl))
  · intro v
    rfl

/-- C6 witness: the amended theorem applied at concrete inputs —
`NULL = NULL` is false, `NULL = 5` is true, `NULL < 5` is false. -/
theorem c6_null_comparison_semantics_witness :
    evalExpr (.comparison "=" (.lit PyVal.none) (.lit PyVal.none)) [] = .ok (.bool false)
      ∧ evalExpr (.comparison "=" (.lit PyVal.none) (.lit (.int 5))) [] = .ok (.bool true)
      ∧ evalExpr (.comparison "<" (.lit PyVal.none) (.lit (.int 5))) [] = .ok (.bool false) :=
  ⟨c6_null_comparison_semantics.1 "=" (Or.inl rfl),
   (c6_null_comparison_semantics.2.1 "=" (.int 5) (Or.inl rfl) (by decide)).1,
   c6_null_comparison_semantics.2.2.1 "<" PyVal.none (.int 5) (Or.inl rfl) (Or.inl rfl)⟩

/-- C7: the type names FLOAT (and the alias REAL, likewise DOUBLE,
DECIMAL, TIMESTAMP, DATE, TIME, DATETIME) are NOT accepted in CREATE
TABLE: the tokenizer keyword list contains only INT, STRING and BOOL
among type names, so FLOAT lexes as an IDENTIFIER and
`_parse_create_table` — which demands a KEYWORD token for the type —
fails with a parse error, even though `DataType.from_string` itself
supports every name and alias.  INT, by contrast, parses fine. -/
theorem c7_float_type_name_rejected :
    c7Parse = .error (.parseExpectedType "KEYWORD" "FLOAT")
      ∧ c7ParseReal = .error (.parseExpectedType "KEYWORD" "REAL")
      ∧ DataType.fromString "FLOAT" = .ok DataType.FLOAT
      ∧ DataType.fromString "REAL" = .ok DataType.FLOAT
      ∧ c7ParseInt = .ok (.createTable "t2"
          [{ name := "x", dataType := .INT, isPrimaryKey := true, isUnique := false,
             foreignKeyTable := Option.none, foreignKeyColumn := Option.none,
             onDelete := "RESTRICT", onUpdate := "RESTRICT" }]) := by
  exact ⟨rfl, rfl, rfl, rfl, rfl⟩

/-- C8: `LIMIT 0` does NOT yield an empty list.  In
`_apply_limit_offset` the expression `start + limit if limit else
None` treats the limit 0 as falsy, so no upper bound is applied and
the whole result comes back.  The other two conjuncts confirm the
parts of the claim that do hold: an OFFSET at or past the result size
yields an empty list, and positive bounds slice `[offset,
offset+limit)`. -/
theorem c8_limit_zero_returns_all_rows :
    applyLimitOffset [[("id", PyVal.int 1)]] (some 0) Option.none = [[("id", PyVal.int 1)]]
      ∧ applyLimitOffset [[("id", PyVal.int 1)]] Option.none (some 5) = []
      ∧ applyLimitOffset [[("a", PyVal.int 1)], [("a", PyVal.int 2)], [("a", PyVal.int 3)]]
          (some 1) (some 1) = [[("a", PyVal.int 2)]] := by
  exact ⟨rfl, rfl, rfl⟩

/-- C9: rows with a NULL sort key are NOT placed last under DESC.
The sort key `(value is None, value)` sends NULLs last only for an
ascending sort; `reverse=True` flips the nullness flag along with the
rest, so DESC puts the NULL row FIRST — contradicting the adjacent
source comment.  ASC behaves as claimed. -/
theorem c9_desc_sort_puts_nulls_first :
    applyOrderBy [[("a", PyVal.int 1)], [("a", PyVal.none)]] [("a", "DESC")]
        = .ok [[("a", PyVal.none)], [("a", PyVal.int 1)]]
      ∧ applyOrderBy [[("a", PyVal.int 1)], [("a", PyVal.none)]] [("a", "ASC")]
          = .ok [[("a", PyVal.int 1)], [("a", PyVal.none)]] := by
  exact ⟨rfl, rfl⟩

/-- C10: NULL is rejected by the row layer for every column type —
`_validate_type` errors on `None` under all seven types, hence `Row`
construction and `Row.set` fail on NULL, a successful validation never
stores `None`, an INSERT whose VALUES list contains a NULL literal
fails with the type error, and the ON DELETE SET NULL action fails
when it tries to write NULL into the typed referencing column. -/
theorem c10_null_rejected_everywhere :
    (∀ (c : String) (t : DataType), ∃ e, validateType c PyVal.none t = .error e)
    ∧ (∀ (t : DataType) (row : RowMap), ∃ e,
        rowSet [("x", t)] row "x" PyVal.none = .error e)
    ∧ (∀ t : DataType, ∃ e, mkRow [("x", t)] [("x", PyVal.none)] = .error e)
    ∧ (∀ (c : String) (t : DataType) (v w : PyVal),
        validateType c v t = .ok w → w ≠ PyVal.none)
    ∧ c10InsertNull = .error (.typeMismatch "v" DataType.INT)
    ∧ c10SetNullRun = .error (.typeMismatch "uid" DataType.INT) := by
  refine ⟨?_, ?_, ?_, validate_ok_not_null, rfl, rfl⟩
  · intro c t
    cases t <;> exact ⟨_, rfl⟩
  · intro t row
    cases t <;> exact ⟨_, rfl⟩
  · intro t
    cases t <;> exact ⟨_, rfl⟩

/-- C10 witness: the quantified parts of the theorem applied at
concrete inputs. -/
theorem c10_null_rejected_everywhere_witness :
    (∃ e, validateType "x" PyVal.none DataType.INT = .error e)
      ∧ validateType "x" (PyVal.int 3) DataType.INT = .ok (PyVal.int 3)
      ∧ PyVal.int 3 ≠ PyVal.none :=
  ⟨c10_null_rejected_everywhere.1 "x" DataType.INT, rfl,
   c10_null_rejected_everywhere.2.2.2.1 "x" DataType.INT (PyVal.int 3) (PyVal.int 3) rfl⟩
